import Mathlib

/-!
Verification of the supervised child-process lifecycle manager in
scripts/service/mcp_ghidra5_service.py (class MCPGhidra5Service).

The definitions below are a shallow embedding of the relevant methods:
restart accounting and backoff (handle_server_restart, source lines 397-439),
the monitor loop dispatch (monitor_server, lines 369-395), the stop path
(SvcStop, lines 228-264) and the periodic health check
(periodic_health_check, lines 441-469).  Timestamps are natural numbers of
seconds; the clock is assumed monotone (a crash is observed no earlier than
the last recorded restart).
-/

namespace MCPGhidra5

/-- Configuration values consumed by the service.  Defaults are taken from
load_configuration (source lines 123-153); shutdown_timeout has no entry in
the defaults dictionary and is obtained through the fallback value 15 at the
call site (line 249). -/
structure ServiceConfig where
  auto_restart : Bool
  restart_delay : Nat
  max_restarts : Nat
  restart_window : Nat
  health_check_interval : Nat
  shutdown_timeout : Nat
  max_memory_mb : Nat
deriving DecidableEq, Repr

/-- Defaults from the configuration dictionary (lines 133-140) together with
the fallback shutdown_timeout of 15 seconds (line 249) and max_memory_mb of
2048 (line 130). -/
def defaultConfig : ServiceConfig :=
  { auto_restart := true
    restart_delay := 30
    max_restarts := 5
    restart_window := 3600
    health_check_interval := 60
    shutdown_timeout := 15
    max_memory_mb := 2048 }

/-- Python timedelta.seconds for a non-negative difference of d seconds: the
seconds component after removing whole days, i.e. d modulo 86400.  The source
reads (current_time - self.last_restart).seconds at line 404, not
total_seconds(). -/
def tdSeconds (d : Nat) : Nat := d % 86400

/-- Restart accounting state: self.restart_count (line 83, a natural number)
and self.last_restart (line 84, a timestamp or None). -/
structure RestartState where
  restart_count : Nat
  last_restart : Option Nat
deriving DecidableEq, Repr

/-- Window update at the top of handle_server_restart (lines 399-408): if
last_restart is set and the seconds component of the elapsed time is below
restart_window, increment the count, otherwise reset it to 1. -/
def updateRestartCount (cfg : ServiceConfig) (restart_count : Nat)
    (last_restart : Option Nat) (current_time : Nat) : Nat :=
  match last_restart with
  | some lr =>
      if tdSeconds (current_time - lr) < cfg.restart_window then
        restart_count + 1
      else
        1
  | none => 1

/-- Outcome of a restart decision: either wait delaySeconds and relaunch, or
deny the restart (the source then calls SvcStop and returns, lines 412-415). -/
inductive RestartDecision where
  | deny : RestartDecision
  | allow : Nat → RestartDecision
deriving DecidableEq, Repr

/-- Exponential backoff with hard cap (line 419):
min(base_delay * 2 ** (restart_count - 1), 300). -/
def restartDelay (cfg : ServiceConfig) (count : Nat) : Nat :=
  min (cfg.restart_delay * 2 ^ (count - 1)) 300

/-- Embedding of handle_server_restart (lines 397-439).  current_time is the
crash-detection timestamp taken at entry (line 399).  launchOk records
whether the relaunch via start_server succeeds (line 433); only on success
is last_restart set to current_time (line 434).  The updated count is stored
in both branches, since the source mutates self.restart_count before the
max_restarts check (lines 405-412). -/
def handle_server_restart (cfg : ServiceConfig) (st : RestartState)
    (current_time : Nat) (launchOk : Bool) : RestartState × RestartDecision :=
  let count := updateRestartCount cfg st.restart_count st.last_restart current_time
  if count > cfg.max_restarts then
    ({ restart_count := count, last_restart := st.last_restart }, .deny)
  else
    let delay := restartDelay cfg count
    if launchOk then
      ({ restart_count := count, last_restart := some current_time }, .allow delay)
    else
      ({ restart_count := count, last_restart := st.last_restart }, .allow delay)

/-- Run handle_server_restart over a sequence of crash timestamps, each
relaunch succeeding, collecting the decisions in order. -/
def runCrashes (cfg : ServiceConfig) : RestartState → List Nat → List RestartDecision
  | _, [] => []
  | st, t :: ts =>
      let r := handle_server_restart cfg st t true
      r.2 :: runCrashes cfg r.1 ts

/-- Severity of a log record; log_info, log_warning and log_error
(lines 204-226) write at these levels. -/
inductive LogLevel where
  | info : LogLevel
  | warning : LogLevel
  | error : LogLevel
deriving DecidableEq, Repr

/-- One log record: severity and message text. -/
structure LogEntry where
  level : LogLevel
  msg : String
deriving DecidableEq, Repr

/-- Action taken by one pass of the monitor loop body (lines 373-389):
dispatch to handle_server_restart, call SvcStop and leave the loop, or sleep
for the health-check interval and poll again. -/
inductive MonitorAction where
  | handleRestart : MonitorAction
  | stopService : MonitorAction
  | sleepInterval : Nat → MonitorAction
deriving DecidableEq, Repr

/-- One pass of the monitor loop body of monitor_server (lines 373-389),
given whether poll() reported the worker as exited.  On exit with
auto_restart enabled it dispatches to handle_server_restart (line 381); with
auto_restart disabled it calls SvcStop and breaks out of the loop
(lines 383-385), leaving the restart state untouched; with the worker still
running it sleeps for health_check_interval (lines 388-389). -/
def monitor_server_dispatch (cfg : ServiceConfig) (st : RestartState)
    (processExited : Bool) (current_time : Nat) (launchOk : Bool) :
    RestartState × MonitorAction :=
  if processExited then
    if cfg.auto_restart then
      let r := handle_server_restart cfg st current_time launchOk
      (r.1, .handleRestart)
    else
      (st, .stopService)
  else
    (st, .sleepInterval cfg.health_check_interval)

/-- Result of one run of SvcStop: the log records it emits in order, whether
kill() was escalated to, the alive flag afterwards, and the wall-clock
seconds the call blocks for. -/
structure StopResult where
  logs : List LogEntry
  killIssued : Bool
  is_alive : Bool
  elapsed : Nat
deriving DecidableEq, Repr

/-- Embedding of SvcStop (lines 228-264).  aliveIn is the alive flag on
entry; the source never reads it (there is no already-stopped check in
SvcStop), so the body ignores it.  hasProcess is the truth of
self.server_process (line 239).  workerExitTime is how many seconds after
terminate() the worker takes to exit: wait(timeout) at line 251 returns
within min workerExitTime shutdown_timeout seconds, and raises
TimeoutExpired when workerExitTime exceeds the timeout, upon which a warning
is logged and kill() is issued (lines 253-255).  monitorRemaining is how
long the monitor thread still has to run; the join at line 262 blocks for at
most 5 seconds.  The exception handler at lines 257-258 is not modelled:
terminate, wait and kill are taken to raise nothing. -/
def SvcStop (cfg : ServiceConfig) (aliveIn : Bool) (hasProcess : Bool)
    (workerExitTime : Nat) (monitorRemaining : Nat) : StopResult :=
  let _ := aliveIn
  let graceful := workerExitTime ≤ cfg.shutdown_timeout
  let procLogs : List LogEntry :=
    if hasProcess then
      ⟨.info, "Attempting graceful server shutdown"⟩ ::
        (if graceful then
          [⟨.info, "Server shut down gracefully"⟩]
        else
          [⟨.warning, "Server did not shut down gracefully, forcing termination"⟩])
    else
      []
  { logs := ⟨.info, "Service stop requested"⟩ ::
      (procLogs ++ [⟨.info, "Service stopped"⟩])
    killIssued := hasProcess && !(decide graceful)
    is_alive := false
    elapsed := (if hasProcess then min workerExitTime cfg.shutdown_timeout else 0)
      + min monitorRemaining 5 }

/-- Outcome of the psutil sampling block inside periodic_health_check
(lines 448-466): a successful sample of memory (MB) and CPU (percent), a
NoSuchProcess exception, or any other exception with its message. -/
inductive MetricsResult where
  | ok : Nat → Nat → MetricsResult
  | noSuchProcess : MetricsResult
  | failure : String → MetricsResult
deriving DecidableEq, Repr

/-- Embedding of periodic_health_check (lines 441-469) for a worker that
self.server_process reports (hasProcess) and poll() finds still running
(running).  Every exception from the sampling block is caught inside the
function: NoSuchProcess is logged at error level (lines 463-464), any other
exception at warning level (lines 465-466); the function always returns a
plain list of log records, so no sampling error propagates to the caller. -/
def periodic_health_check (cfg : ServiceConfig) (hasProcess : Bool)
    (running : Bool) (metrics : MetricsResult) : List LogEntry :=
  if hasProcess && running then
    match metrics with
    | .ok memory_mb cpu_percent =>
        (if memory_mb > cfg.max_memory_mb then
          [⟨.warning, "Server memory usage exceeds limit"⟩]
        else []) ++
        (if cpu_percent > 80 then
          [⟨.warning, "High server CPU usage"⟩]
        else [])
    | .noSuchProcess => [⟨.error, "Server process no longer exists"⟩]
    | .failure _ => [⟨.warning, "Error getting process info"⟩]
  else
    []

/-- Behaviour of the monitor loop when its body raises (lines 391-393): the
exception is caught, logged at error level, the thread sleeps 30 seconds and
the while condition is re-entered, so the loop continues.  Returns the log
records, the cooldown in seconds and whether the loop keeps running. -/
def monitor_server_on_error (msg : String) : List LogEntry × Nat × Bool :=
  let _ := msg
  ([⟨.error, "Error in server monitoring"⟩], 30, true)

/-- Program location of the monitor thread inside monitor_server and
handle_server_restart.  checkAlive is the while-condition at line 373;
checkExit is the poll() test at line 375; sleeping is the backoff
time.sleep(restart_delay) at line 422; launching is the call to
start_server at line 433; done is the thread having left the loop. -/
inductive MonLoc where
  | checkAlive : MonLoc
  | checkExit : MonLoc
  | sleeping : MonLoc
  | launching : MonLoc
  | done : MonLoc
deriving DecidableEq, Repr

/-- Shared state of the two concurrent units: the monitor thread location,
whether SvcStop has set self.is_alive to False (line 237), and how many
worker launches have happened after the stop was signalled. -/
structure SysState where
  loc : MonLoc
  stopRequested : Bool
  launchesAfterStop : Nat
deriving DecidableEq, Repr

/-- An interleaving step is either one step of the monitor thread or the
service-control thread running SvcStop (modelled only through its write of
the alive flag). -/
inductive SysAction where
  | monStep : SysAction
  | stopSignal : SysAction
deriving DecidableEq, Repr

/-- Small-step interleaving semantics of the monitor thread of
monitor_server together with a concurrent SvcStop.  crashed is the fixed
truth of poll() reporting the worker as exited; auto_restart is read from
the configuration.  The only read of the alive flag on the monitor side is
the while-condition at line 373: neither the backoff sleep (line 422) nor
the relaunch (line 433) inspects it, which is reflected in the sleeping and
launching steps proceeding regardless of stopRequested. -/
def sysStep (cfg : ServiceConfig) (crashed : Bool) (s : SysState)
    (a : SysAction) : SysState :=
  match a with
  | .stopSignal => { s with stopRequested := true }
  | .monStep =>
      match s.loc with
      | .checkAlive =>
          if s.stopRequested then { s with loc := .done }
          else { s with loc := .checkExit }
      | .checkExit =>
          if crashed then
            if cfg.auto_restart then { s with loc := .sleeping }
            else { s with loc := .done }
          else
            { s with loc := .checkAlive }
      | .sleeping => { s with loc := .launching }
      | .launching =>
          { loc := .checkAlive
            stopRequested := s.stopRequested
            launchesAfterStop :=
              s.launchesAfterStop + (if s.stopRequested then 1 else 0) }
      | .done => s

/-- Run a whole interleaving (a list of scheduled actions) from an initial
state. -/
def runSys (cfg : ServiceConfig) (crashed : Bool) (s : SysState)
    (as : List SysAction) : SysState :=
  as.foldl (sysStep cfg crashed) s

/-- Invariant for the amended C5: once the stop flag is set while the
monitor thread sits at the while-condition, the thread can only move to
done, and no launch is ever counted after the stop. -/
def stopWinsInv (s : SysState) : Prop :=
  s.stopRequested = true ∧ s.launchesAfterStop = 0 ∧
    (s.loc = MonLoc.checkAlive ∨ s.loc = MonLoc.done)

end MCPGhidra5

namespace MCPGhidra5

/-- C1: for every restart decision, with n the updated restart count, if
n is at most max_restarts the decision allows a relaunch after a delay of
min(base_delay * 2 ^ (n - 1), 300) seconds, and if n exceeds max_restarts
the decision is deny (the supervisor stops instead of relaunching). -/
theorem restart_backoff_formula (cfg : ServiceConfig) (st : RestartState)
    (t : Nat) (ok : Bool) (n : Nat)
    (hn : n = updateRestartCount cfg st.restart_count st.last_restart t) :
    (handle_server_restart cfg st t ok).2 =
      if n ≤ cfg.max_restarts then
        RestartDecision.allow (min (cfg.restart_delay * 2 ^ (n - 1)) 300)
      else
        RestartDecision.deny := by
  subst hn
  unfold handle_server_restart restartDelay
  rcases Nat.lt_or_ge cfg.max_restarts
      (updateRestartCount cfg st.restart_count st.last_restart t) with h | h
  · simp [h, Nat.not_le.mpr h]
  · cases ok <;> simp [Nat.not_lt.mpr h, h]

theorem restart_backoff_formula_witness :
    (handle_server_restart defaultConfig ⟨2, some 0⟩ 10 true).2 =
      if 3 ≤ defaultConfig.max_restarts then
        RestartDecision.allow (min (defaultConfig.restart_delay * 2 ^ (3 - 1)) 300)
      else
        RestartDecision.deny :=
  restart_backoff_formula defaultConfig ⟨2, some 0⟩ 10 true 3 (by decide)

/-- C2: the window check at lines 403-404 compares
(current_time - last_restart).seconds, the seconds component modulo one day,
against restart_window, rather than the total elapsed seconds.  With a prior
count of 3, a last restart at time 0 and a crash observed at time 86410
(one day and ten seconds later), the elapsed time 86410 exceeds the default
window of 3600 seconds, yet the count is incremented to 4 instead of being
reset to 1, because 86410 modulo 86400 is 10.  This contradicts the comment
at line 407 (reset the count when outside the window) and the log message at
line 413 that speaks of the window in seconds. -/
theorem restart_window_wrap_bug :
    3600 < 86410 - 0 ∧
    defaultConfig.restart_window = 3600 ∧
    updateRestartCount defaultConfig 3 (some 0) 86410 = 4 := by
  decide

/-- C3: with base delay 30 and max_restarts 5 (the defaults), six crashes in
rapid succession inside one restart window produce the delays 30, 60, 120,
240 and 300 (capped) for the first five, and the sixth is denied. -/
theorem six_crash_scenario :
    runCrashes defaultConfig ⟨0, none⟩ [0, 10, 20, 30, 40, 50] =
      [RestartDecision.allow 30, RestartDecision.allow 60,
       RestartDecision.allow 120, RestartDecision.allow 240,
       RestartDecision.allow 300, RestartDecision.deny] := by
  decide

/-- C4: when stop is requested while a restart backoff delay is pending, the
worker has already exited (that is why a restart is pending), so the
terminate-wait at line 251 returns at once, and the join of the monitor
thread at line 262 blocks for at most its 5 second timeout no matter how
much of the pending delay (for instance 300 seconds) remains; the main loop
of SvcDoRun is woken immediately through the hWaitStop event (lines 286-293).
The supervisor therefore reaches Stopped within 5 seconds, far below the
pending 300 second delay. -/
theorem stop_latency_bounded (monitorRemaining : Nat) :
    (SvcStop defaultConfig true true 0 monitorRemaining).elapsed ≤ 5 ∧
      (SvcStop defaultConfig true true 0 300).elapsed < 300 := by
  constructor
  · show (if true then min 0 defaultConfig.shutdown_timeout else 0)
        + min monitorRemaining 5 ≤ 5
    simp
  · decide

/-- C5 counterexample: an interleaving in which the monitor thread passes
the while-condition, detects the crash, enters the backoff sleep, the stop
is then signalled, and the thread subsequently relaunches the worker anyway:
one launch is counted after the stop signal, because neither the sleep at
line 422 nor the relaunch at line 433 checks the alive flag.  This refutes
the claim that once stop is signalled no new launch may occur in any
interleaving. -/
theorem stop_race_counterexample :
    (runSys defaultConfig true ⟨MonLoc.checkAlive, false, 0⟩
      [SysAction.monStep, SysAction.monStep, SysAction.stopSignal,
       SysAction.monStep, SysAction.monStep]).launchesAfterStop = 1 ∧
    (runSys defaultConfig true ⟨MonLoc.checkAlive, false, 0⟩
      [SysAction.monStep, SysAction.monStep, SysAction.stopSignal,
       SysAction.monStep, SysAction.monStep]).stopRequested = true := by
  decide

/-- C5 amended: a stop request prevents any further launch only when it is
signalled before the monitor thread next evaluates the while-condition at
line 373: from that point the thread moves to done and no launch is ever
counted after the stop, in every interleaving and for every configuration.
Once the thread has moved past the condition into handle_server_restart, a
concurrent stop no longer prevents the relaunch. -/
theorem stop_before_loop_check_no_launch (cfg : ServiceConfig)
    (crashed : Bool) (as : List SysAction) :
    (runSys cfg crashed ⟨MonLoc.checkAlive, true, 0⟩ as).launchesAfterStop
      = 0 := by
  have key : ∀ (l : List SysAction) (s : SysState), stopWinsInv s →
      stopWinsInv (List.foldl (sysStep cfg crashed) s l) := by
    intro l
    induction l with
    | nil => intro s hs; exact hs
    | cons a t ih =>
        intro s hs
        apply ih
        obtain ⟨h1, h2, h3⟩ := hs
        cases a with
        | stopSignal =>
            exact ⟨rfl, h2, h3⟩
        | monStep =>
            rcases h3 with h | h
            · refine ⟨?_, ?_, Or.inr ?_⟩ <;> simp [sysStep, h, h1, h2]
            · refine ⟨?_, ?_, Or.inr ?_⟩ <;> simp [sysStep, h, h1, h2]
  exact (key as ⟨MonLoc.checkAlive, true, 0⟩ ⟨rfl, rfl, Or.inl rfl⟩).2.1

/-- C6: when the monitor observes a worker exit and auto_restart is
disabled, the dispatch is stopService (SvcStop is called and the loop is
left, a normal shutdown) and the restart state is returned unchanged: the
restart count update and the backoff computation of handle_server_restart
are never consulted. -/
theorem auto_restart_disabled_stops (cfg : ServiceConfig) (st : RestartState)
    (t : Nat) (ok : Bool) (hd : cfg.auto_restart = false) :
    monitor_server_dispatch cfg st true t ok = (st, MonitorAction.stopService) := by
  simp [monitor_server_dispatch, hd]

theorem auto_restart_disabled_stops_witness :
    monitor_server_dispatch { defaultConfig with auto_restart := false }
      ⟨2, some 0⟩ true 10 true = (⟨2, some 0⟩, MonitorAction.stopService) :=
  auto_restart_disabled_stops { defaultConfig with auto_restart := false }
    ⟨2, some 0⟩ 10 true rfl

/-- C7: if the worker does not exit within shutdown_timeout seconds of the
terminate signal, SvcStop escalates to kill(), logs the escalation at
warning severity with no error-level record emitted, and still completes
within shutdown_timeout plus the 5 second monitor join, so Stopped is
reached shortly after the timeout. -/
theorem shutdown_timeout_escalation (cfg : ServiceConfig) (aliveIn : Bool)
    (workerExitTime monitorRemaining : Nat)
    (hslow : cfg.shutdown_timeout < workerExitTime) :
    (SvcStop cfg aliveIn true workerExitTime monitorRemaining).killIssued = true ∧
    (⟨LogLevel.warning,
        "Server did not shut down gracefully, forcing termination"⟩ : LogEntry) ∈
      (SvcStop cfg aliveIn true workerExitTime monitorRemaining).logs ∧
    (∀ e ∈ (SvcStop cfg aliveIn true workerExitTime monitorRemaining).logs,
      e.level ≠ LogLevel.error) ∧
    (SvcStop cfg aliveIn true workerExitTime monitorRemaining).elapsed ≤
      cfg.shutdown_timeout + 5 := by
  have hng : ¬ workerExitTime ≤ cfg.shutdown_timeout := Nat.not_le.mpr hslow
  refine ⟨?_, ?_, ?_, ?_⟩
  · simp [SvcStop, hng]
  · simp [SvcStop, hng]
  · intro e he
    simp [SvcStop, hng] at he
    rcases he with h | h | h | h <;> simp [h]
  · show (if true then min workerExitTime cfg.shutdown_timeout else 0)
        + min monitorRemaining 5 ≤ cfg.shutdown_timeout + 5
    simp only [if_pos]
    exact Nat.add_le_add (Nat.min_le_right _ _) (Nat.min_le_right _ _)

theorem shutdown_timeout_escalation_witness :
    (SvcStop defaultConfig true true 100 0).killIssued = true ∧
    (⟨LogLevel.warning,
        "Server did not shut down gracefully, forcing termination"⟩ : LogEntry) ∈
      (SvcStop defaultConfig true true 100 0).logs ∧
    (∀ e ∈ (SvcStop defaultConfig true true 100 0).logs,
      e.level ≠ LogLevel.error) ∧
    (SvcStop defaultConfig true true 100 0).elapsed ≤
      defaultConfig.shutdown_timeout + 5 :=
  shutdown_timeout_escalation defaultConfig true 100 0 (by decide)

/-- C8 counterexample: SvcStop contains no already-stopped check (it never
reads the alive flag), so invoking it on a supervisor whose alive flag is
already false still emits log records, at least the info records "Service
stop requested" (line 230) and "Service stopped" (line 264).  This refutes
the claim that stop on an already-Stopped supervisor produces no additional
log entries. -/
theorem stop_on_stopped_logs :
    (SvcStop defaultConfig false false 0 0).logs =
      [⟨LogLevel.info, "Service stop requested"⟩,
       ⟨LogLevel.info, "Service stopped"⟩] ∧
    (SvcStop defaultConfig false false 0 0).logs ≠ [] := by
  decide

/-- C8 amended: calling stop on an already-Stopped supervisor leaves the
alive flag false, so the supervisor state is unchanged in that respect, but
the whole stop sequence is re-executed and at least two additional log
records are emitted, the first of them "Service stop requested". -/
theorem stop_on_stopped_state (cfg : ServiceConfig) (hasProcess : Bool)
    (workerExitTime monitorRemaining : Nat) :
    (SvcStop cfg false hasProcess workerExitTime monitorRemaining).is_alive
        = false ∧
    2 ≤ (SvcStop cfg false hasProcess workerExitTime monitorRemaining).logs.length ∧
    (SvcStop cfg false hasProcess workerExitTime monitorRemaining).logs.head? =
      some ⟨LogLevel.info, "Service stop requested"⟩ := by
  refine ⟨rfl, ?_, rfl⟩
  show 2 ≤ (List.cons _ _).length
  simp [SvcStop]

/-- C9: every failure of the metrics sampling inside periodic_health_check
is caught and turned into a single log record, NoSuchProcess at error level
and any other exception at warning level, with the function returning
normally in both cases; and when the monitor loop body itself raises, the
exception is caught, logged at error level, the thread cools down 30 seconds
and the loop continues.  No sampling error ever propagates out of either
function or terminates the service. -/
theorem metrics_errors_contained (cfg : ServiceConfig) (s : String) :
    periodic_health_check cfg true true MetricsResult.noSuchProcess =
      [⟨LogLevel.error, "Server process no longer exists"⟩] ∧
    periodic_health_check cfg true true (MetricsResult.failure s) =
      [⟨LogLevel.warning, "Error getting process info"⟩] ∧
    monitor_server_on_error s =
      ([⟨LogLevel.error, "Error in server monitoring"⟩], 30, true) := by
  exact ⟨rfl, rfl, rfl⟩

/-- C10 counterexample: with no previous restart recorded the count is reset
to 1, but the computed delay is min(base_delay, 300), not the base delay
itself: with base_delay configured to 400 the first delay is 300, because
the cap at line 419 applies even to the first attempt.  This refutes the
claim that the delay always equals the base delay in this situation. -/
theorem first_crash_delay_counterexample :
    (handle_server_restart { defaultConfig with restart_delay := 400 }
      ⟨7, none⟩ 50 true).2 = RestartDecision.allow 300 ∧
    RestartDecision.allow 300 ≠ RestartDecision.allow
      ({ defaultConfig with restart_delay := 400 } : ServiceConfig).restart_delay := by
  decide

/-- C10 amended: when no previous successful restart is recorded
(last_restart is None) and at least one restart is allowed, the decision
resets the restart count to 1 regardless of its prior value and allows a
relaunch after min(base_delay, 300) seconds; the last-restart timestamp is
updated only when the relaunch succeeds, and then to the crash-detection
time, otherwise it is left unchanged. -/
theorem first_crash_reset (cfg : ServiceConfig) (st : RestartState) (t : Nat)
    (ok : Bool) (hnone : st.last_restart = none) (hmax : 1 ≤ cfg.max_restarts) :
    (handle_server_restart cfg st t ok).1.restart_count = 1 ∧
    (handle_server_restart cfg st t ok).2 =
      RestartDecision.allow (min cfg.restart_delay 300) ∧
    (handle_server_restart cfg st t ok).1.last_restart =
      (if ok then some t else st.last_restart) := by
  have hcount : updateRestartCount cfg st.restart_count st.last_restart t = 1 := by
    simp [updateRestartCount, hnone]
  have hng : ¬ (1 > cfg.max_restarts) := Nat.not_lt.mpr hmax
  cases ok <;>
    simp [handle_server_restart, hcount, hng, restartDelay]

theorem first_crash_reset_witness :
    (handle_server_restart defaultConfig ⟨7, none⟩ 50 true).1.restart_count = 1 ∧
    (handle_server_restart defaultConfig ⟨7, none⟩ 50 true).2 =
      RestartDecision.allow (min defaultConfig.restart_delay 300) ∧
    (handle_server_restart defaultConfig ⟨7, none⟩ 50 true).1.last_restart =
      (if true then some 50 else (⟨7, none⟩ : RestartState).last_restart) :=
  first_crash_reset defaultConfig ⟨7, none⟩ 50 true rfl (by decide)

end MCPGhidra5
